import Mathlib

/-!
Verification of the Snake game state machine (src/src/script.ts).

The script's mutable module-level variables (`running`, `xVelocity`,
`yVelocity`, `foodX`, `foodY`, `score`, `snake`) become a `GameState`
record; each state-mutating function becomes a state transformer.
Rendering, the DOM score display and the timer are external I/O and are
dropped; `Math.random()` draws are passed in as explicit rational
arguments in `[0,1]`.  The board dimensions `gameWidth`/`gameHeight`
come from the HTML canvas element, which is outside the script, so they
stay parameters throughout.
-/

namespace SnakeGame

/-- An integer coordinate pair: a snake segment or the food cell. -/
structure Pos where
  x : ℤ
  y : ℤ
deriving DecidableEq, Repr

/-- `const unitSize: number = 25;` — the fixed grid unit. -/
def unitSize : ℤ := 25

/-- The script's mutable module-level state. -/
structure GameState where
  running : Bool
  xVelocity : ℤ
  yVelocity : ℤ
  foodX : ℤ
  foodY : ℤ
  score : ℕ
  snake : List Pos
deriving DecidableEq, Repr

/-- JavaScript `Math.round`: round half toward positive infinity,
`Math.round(q) = ⌊q + 1/2⌋`. -/
def jsRound (q : ℚ) : ℤ := ⌊q + 1/2⌋

/-- The inner helper of `createFood`:
`Math.round((r * (max - min) + min) / unitSize) * unitSize`,
with the `Math.random()` draw `r` made explicit. -/
def randomFood (r mn mx : ℚ) : ℤ :=
  jsRound ((r * (mx - mn) + mn) / (unitSize : ℚ)) * unitSize

/-- `createFood()`: note that the source uses `gameWidth - unitSize` as the
upper bound for BOTH coordinates (`foodY = randomFood(0, gameWidth - unitSize)`),
so `gameHeight` does not occur here. -/
def createFood (gameWidth : ℤ) (r1 r2 : ℚ) (s : GameState) : GameState :=
  { s with
    foodX := randomFood r1 0 ((gameWidth : ℚ) - (unitSize : ℚ))
    foodY := randomFood r2 0 ((gameWidth : ℚ) - (unitSize : ℚ)) }

/-- The initial / reset snake configuration from the source:
five segments, head first at `x = 4 * unitSize`. -/
def initialSnake : List Pos :=
  [⟨unitSize * 4, 0⟩, ⟨unitSize * 3, 0⟩, ⟨unitSize * 2, 0⟩, ⟨unitSize, 0⟩, ⟨0, 0⟩]

/-- `moveSnake()`: prepend the new head (old head plus velocity); if it hits
the food, bump the score and regenerate the food, otherwise pop the tail.
`snake[0]` on an empty array would throw in JS; the empty case is modelled
as the identity (it is unreachable: the snake is never empty). -/
def moveSnake (gameWidth : ℤ) (r1 r2 : ℚ) (s : GameState) : GameState :=
  match s.snake with
  | [] => s
  | h :: t =>
    let headOfSnake : Pos := ⟨h.x + s.xVelocity, h.y + s.yVelocity⟩
    let s1 := { s with snake := headOfSnake :: h :: t }
    if headOfSnake.x = s.foodX ∧ headOfSnake.y = s.foodY then
      createFood gameWidth r1 r2 { s1 with score := s1.score + 1 }
    else
      { s1 with snake := s1.snake.dropLast }

/-- The keyboard inputs `changeDirection` inspects; any other key is `other`. -/
inductive Key where
  | arrowLeft
  | arrowUp
  | arrowRight
  | arrowDown
  | other
deriving DecidableEq, Repr

/-- `changeDirection(event)`: the `switch (true)` runs the first case whose
guard holds and breaks, which is a cascade of conditionals. -/
def changeDirection (k : Key) (s : GameState) : GameState :=
  let goingLeft : Prop := s.xVelocity = -unitSize
  let goingUp : Prop := s.yVelocity = -unitSize
  let goingRight : Prop := s.xVelocity = unitSize
  let goingDown : Prop := s.yVelocity = unitSize
  if k = Key.arrowLeft ∧ ¬goingRight then
    { s with xVelocity := -unitSize, yVelocity := 0 }
  else if k = Key.arrowUp ∧ ¬goingDown then
    { s with yVelocity := -unitSize, xVelocity := 0 }
  else if k = Key.arrowRight ∧ ¬goingLeft then
    { s with xVelocity := unitSize, yVelocity := 0 }
  else if k = Key.arrowDown ∧ ¬goingUp then
    { s with yVelocity := unitSize, xVelocity := 0 }
  else s

/-- `checkGameOver()`: the `switch` sets `running = false` on any boundary
violation of the head, then the `for` loop over indices `i ≥ 1` sets it to
false again whenever a body segment coincides with the head.  No branch
ever sets `running` to true. -/
def checkGameOver (gameWidth gameHeight : ℤ) (s : GameState) : GameState :=
  match s.snake with
  | [] => s
  | h :: t =>
    let running1 : Bool :=
      if h.x < 0 then false
      else if h.x ≥ gameWidth then false
      else if h.y < 0 then false
      else if h.y ≥ gameHeight then false
      else s.running
    let running2 : Bool :=
      if t.any (fun p => p.x == h.x && p.y == h.y) then false else running1
    { s with running := running2 }

/-- `displayGameOver()`: apart from rendering, it sets `running = false`. -/
def displayGameOver (s : GameState) : GameState :=
  { s with running := false }

/-- `gameStart()`: set `running = true`, create the initial food (score
display, drawing and the tick timer are I/O). -/
def gameStart (gameWidth : ℤ) (r1 r2 : ℚ) (s : GameState) : GameState :=
  createFood gameWidth r1 r2 { s with running := true }

/-- `resetGame()`: reset score, velocity and snake, then `gameStart()`. -/
def resetGame (gameWidth : ℤ) (r1 r2 : ℚ) (s : GameState) : GameState :=
  gameStart gameWidth r1 r2
    { s with
      score := 0
      xVelocity := unitSize
      yVelocity := 0
      snake := initialSnake }

/-- One tick of `nextTick()`'s scheduled body, restricted to the state
machine: while running, `moveSnake` then `checkGameOver` (the interleaved
calls are pure rendering); once not running, `displayGameOver`. -/
def tick (gameWidth gameHeight : ℤ) (r1 r2 : ℚ) (s : GameState) : GameState :=
  if s.running then
    checkGameOver gameWidth gameHeight (moveSnake gameWidth r1 r2 s)
  else
    displayGameOver s

/-- The module-level initialisation: the declared initial values of the
mutable variables, followed by the top-level `gameStart()` call.  The JS
`foodX`/`foodY` start out `undefined` and are first written by
`createFood` inside `gameStart`; their pre-`gameStart` value is modelled
as 0, which `gameStart` immediately overwrites. -/
def initState (gameWidth : ℤ) (r1 r2 : ℚ) : GameState :=
  gameStart gameWidth r1 r2
    { running := false
      xVelocity := unitSize
      yVelocity := 0
      foodX := 0
      foodY := 0
      score := 0
      snake := initialSnake }

/-- The events that mutate the state after initialisation: a scheduled
tick, a keydown, or a reset-button click. -/
inductive Step (gameWidth gameHeight : ℤ) : GameState → GameState → Prop where
  | tick (r1 r2 : ℚ) (s : GameState) :
      Step gameWidth gameHeight s (tick gameWidth gameHeight r1 r2 s)
  | key (k : Key) (s : GameState) :
      Step gameWidth gameHeight s (changeDirection k s)
  | reset (r1 r2 : ℚ) (s : GameState) :
      Step gameWidth gameHeight s (resetGame gameWidth r1 r2 s)

/-- The reachable states: the initial state (for any random draws) closed
under `Step`. -/
inductive Reachable (gameWidth gameHeight : ℤ) : GameState → Prop where
  | init (r1 r2 : ℚ) : Reachable gameWidth gameHeight (initState gameWidth r1 r2)
  | step {s t : GameState} : Reachable gameWidth gameHeight s →
      Step gameWidth gameHeight s t → Reachable gameWidth gameHeight t

/-- The velocity invariant from the data model: exactly one of the four
axis-aligned unit steps. -/
def validVelocity (vx vy : ℤ) : Prop :=
  (vx = unitSize ∧ vy = 0) ∨ (vx = -unitSize ∧ vy = 0) ∨
  (vx = 0 ∧ vy = unitSize) ∨ (vx = 0 ∧ vy = -unitSize)

/-- A direction input, with its key and the velocity vector that the
corresponding `changeDirection` case writes into the state. -/
inductive Dir where
  | left
  | up
  | right
  | down
deriving DecidableEq, Repr

/-- The key delivering each direction. -/
def Dir.toKey : Dir → Key
  | .left => Key.arrowLeft
  | .up => Key.arrowUp
  | .right => Key.arrowRight
  | .down => Key.arrowDown

/-- The x component of a direction's unit step. -/
def Dir.vx : Dir → ℤ
  | .left => -unitSize
  | .right => unitSize
  | _ => 0

/-- The y component of a direction's unit step. -/
def Dir.vy : Dir → ℤ
  | .up => -unitSize
  | .down => unitSize
  | _ => 0

/-- A concrete mid-game state (the start scenario of the spec, with the
food away from the snake's path), used to instantiate theorems. -/
def demoState : GameState :=
  { running := true, xVelocity := unitSize, yVelocity := 0,
    foodX := 300, foodY := 300, score := 0, snake := initialSnake }

/-- A concrete post-move state whose head has just crossed the right wall
of a 500 × 500 board. -/
def wallState : GameState :=
  { running := true, xVelocity := unitSize, yVelocity := 0,
    foodX := 300, foodY := 300, score := 3, snake := [⟨500, 0⟩, ⟨475, 0⟩] }

/-- A concrete post-move state whose head has just landed on its own body
(the head coincides with the last segment). -/
def biteState : GameState :=
  { running := true, xVelocity := -unitSize, yVelocity := 0,
    foodX := 300, foodY := 300, score := 10,
    snake := [⟨50, 0⟩, ⟨75, 0⟩, ⟨75, 25⟩, ⟨50, 25⟩, ⟨50, 0⟩] }

/-- A concrete running state about to step its head into the cell its own
tail currently occupies (a 2 × 2 loop). -/
def loopState : GameState :=
  { running := true, xVelocity := 0, yVelocity := unitSize,
    foodX := 475, foodY := 475, score := 0,
    snake := [⟨0, 0⟩, ⟨25, 0⟩, ⟨25, 25⟩, ⟨0, 25⟩] }

lemma checkGameOver_snake_eq (gw gh : ℤ) (s : GameState) :
    (checkGameOver gw gh s).snake = s.snake := by
  cases hs : s.snake <;> simp [checkGameOver, hs]

lemma changeDirection_snake_eq (k : Key) (s : GameState) :
    (changeDirection k s).snake = s.snake := by
  simp only [changeDirection]
  split_ifs <;> rfl

lemma moveSnake_length_pos (gw : ℤ) (r1 r2 : ℚ) (s : GameState)
    (hlen : 1 ≤ s.snake.length) : 1 ≤ (moveSnake gw r1 r2 s).snake.length := by
  cases hs : s.snake with
  | nil => simp [moveSnake, hs] at hlen ⊢
  | cons h t =>
    simp only [moveSnake, hs]
    split_ifs <;> simp [createFood, List.length_dropLast]

lemma moveSnake_vel_eq (gw : ℤ) (r1 r2 : ℚ) (s : GameState) :
    (moveSnake gw r1 r2 s).xVelocity = s.xVelocity ∧
    (moveSnake gw r1 r2 s).yVelocity = s.yVelocity := by
  cases hs : s.snake with
  | nil => simp [moveSnake, hs]
  | cons h t =>
    simp only [moveSnake, hs]
    split_ifs <;> simp [createFood]

lemma checkGameOver_vel_eq (gw gh : ℤ) (s : GameState) :
    (checkGameOver gw gh s).xVelocity = s.xVelocity ∧
    (checkGameOver gw gh s).yVelocity = s.yVelocity := by
  cases hs : s.snake <;> simp [checkGameOver, hs]

lemma changeDirection_valid (k : Key) (s : GameState)
    (hv : validVelocity s.xVelocity s.yVelocity) :
    validVelocity (changeDirection k s).xVelocity (changeDirection k s).yVelocity := by
  simp only [changeDirection]
  split_ifs
  · simp [validVelocity]
  · simp [validVelocity]
  · simp [validVelocity]
  · simp [validVelocity]
  · exact hv

/-- C1: the claim says both food coordinates lie within board bounds, the
y coordinate being drawn from `[0, gameHeight - unitSize]`.  The source
instead computes `foodY = randomFood(0, gameWidth - unitSize)`, reusing
the board WIDTH for the y coordinate.  On a 500 × 250 board (both
dimensions positive multiples of `unitSize`) with second random draw 1,
`createFood` places the food at `foodY = 475`, which is not below the
board height 250: the code contradicts its own comment ("within the game
board boundaries") and the spec. -/
theorem createFood_foodY_ignores_height :
    (0 : ℤ) < 250 ∧ (250 : ℤ) % unitSize = 0 ∧
    (0 : ℤ) < 500 ∧ (500 : ℤ) % unitSize = 0 ∧
    (createFood 500 1 1
      { running := true, xVelocity := unitSize, yVelocity := 0,
        foodX := 0, foodY := 0, score := 0, snake := initialSnake }).foodY = 475 ∧
    ¬ ((475 : ℤ) < 250) := by
  refine ⟨by decide, by decide, by decide, by decide, ?_, by decide⟩
  norm_num [createFood, randomFood, jsRound, unitSize]

/-- C2: one `moveSnake` step on a running state with snake `h :: t`
prepends the new head (old head plus velocity); if the new head equals
the food position the score grows by exactly 1, the food is regenerated
by the `createFood` draws, and the snake grows by exactly one segment;
otherwise the tail is dropped and length, score and food are unchanged. -/
theorem moveSnake_step_spec (gameWidth : ℤ) (r1 r2 : ℚ) (s : GameState)
    (h : Pos) (t : List Pos)
    (hrun : s.running = true) (hsnake : s.snake = h :: t) (nh : Pos)
    (hnh : nh = ⟨h.x + s.xVelocity, h.y + s.yVelocity⟩) :
    (nh.x = s.foodX ∧ nh.y = s.foodY →
      (moveSnake gameWidth r1 r2 s).snake = nh :: h :: t ∧
      (moveSnake gameWidth r1 r2 s).snake.length = s.snake.length + 1 ∧
      (moveSnake gameWidth r1 r2 s).score = s.score + 1 ∧
      (moveSnake gameWidth r1 r2 s).foodX =
        randomFood r1 0 ((gameWidth : ℚ) - (unitSize : ℚ)) ∧
      (moveSnake gameWidth r1 r2 s).foodY =
        randomFood r2 0 ((gameWidth : ℚ) - (unitSize : ℚ))) ∧
    (¬ (nh.x = s.foodX ∧ nh.y = s.foodY) →
      (moveSnake gameWidth r1 r2 s).snake = nh :: (h :: t).dropLast ∧
      (moveSnake gameWidth r1 r2 s).snake.length = s.snake.length ∧
      (moveSnake gameWidth r1 r2 s).score = s.score ∧
      (moveSnake gameWidth r1 r2 s).foodX = s.foodX ∧
      (moveSnake gameWidth r1 r2 s).foodY = s.foodY) := by
  obtain ⟨run, vx, vy, fx, fy, sc, sn⟩ := s
  simp only at hsnake hnh ⊢
  subst hsnake
  subst hnh
  constructor
  · intro he
    simp only at he
    simp [moveSnake, createFood, he.1, he.2]
  · intro hne
    simp only at hne
    simp [moveSnake, hne, List.dropLast_cons₂]

/-- C2 witness: the spec's start scenario with the food elsewhere — one
move on `demoState` yields snake `[(125,0),(100,0),(75,0),(50,0),(25,0)]`
and an unchanged score. -/
theorem moveSnake_step_spec_witness :
    demoState.running = true ∧
    (moveSnake 500 0 0 demoState).snake =
      [⟨125, 0⟩, ⟨100, 0⟩, ⟨75, 0⟩, ⟨50, 0⟩, ⟨25, 0⟩] ∧
    (moveSnake 500 0 0 demoState).score = demoState.score := by
  have h := moveSnake_step_spec 500 0 0 demoState ⟨100, 0⟩
    [⟨75, 0⟩, ⟨50, 0⟩, ⟨25, 0⟩, ⟨0, 0⟩] rfl rfl ⟨125, 0⟩ rfl
  have h2 := h.2 (by decide)
  refine ⟨rfl, ?_, h2.2.2.1⟩
  rw [h2.1]
  rfl

/-- C3: `changeDirection` on a state whose velocity is one of the four
legal axis-aligned unit steps (the data model's velocity invariant): a
direction input that is not the exact reverse of the current velocity
installs that direction's unit vector, and the exact reverse leaves the
velocity unchanged. -/
theorem changeDirection_reverse_guard (s : GameState) (d : Dir)
    (hv : validVelocity s.xVelocity s.yVelocity) :
    (¬ (d.vx = -s.xVelocity ∧ d.vy = -s.yVelocity) →
      (changeDirection d.toKey s).xVelocity = d.vx ∧
      (changeDirection d.toKey s).yVelocity = d.vy) ∧
    ((d.vx = -s.xVelocity ∧ d.vy = -s.yVelocity) →
      (changeDirection d.toKey s).xVelocity = s.xVelocity ∧
      (changeDirection d.toKey s).yVelocity = s.yVelocity) := by
  rcases hv with ⟨hx, hy⟩ | ⟨hx, hy⟩ | ⟨hx, hy⟩ | ⟨hx, hy⟩ <;>
    cases d <;>
      simp [changeDirection, Dir.toKey, Dir.vx, Dir.vy, hx, hy, unitSize]

/-- C3 witness: on `demoState` (moving right), the up input is not the
reverse direction, so the velocity becomes `(0, -unitSize)`. -/
theorem changeDirection_reverse_guard_witness :
    validVelocity demoState.xVelocity demoState.yVelocity ∧
    (changeDirection Dir.up.toKey demoState).xVelocity = Dir.up.vx ∧
    (changeDirection Dir.up.toKey demoState).yVelocity = Dir.up.vy := by
  have hv : validVelocity demoState.xVelocity demoState.yVelocity := by
    left
    exact ⟨rfl, rfl⟩
  exact ⟨hv, (changeDirection_reverse_guard demoState Dir.up hv).1 (by decide)⟩

/-- C4: on any state whose head lies outside the board (x < 0, or
x ≥ width, or y < 0, or y ≥ height), `checkGameOver` clears `running`. -/
theorem checkGameOver_boundary (gameWidth gameHeight : ℤ) (s : GameState)
    (h : Pos) (t : List Pos) (hsnake : s.snake = h :: t)
    (hout : h.x < 0 ∨ h.x ≥ gameWidth ∨ h.y < 0 ∨ h.y ≥ gameHeight) :
    (checkGameOver gameWidth gameHeight s).running = false := by
  simp only [checkGameOver, hsnake]
  rcases hout with h1 | h1 | h1 | h1 <;> split_ifs <;> simp_all <;> omega

/-- C4 witness: head `(500, 0)` on a 500 × 500 board is past the right
wall, and the check stops the game. -/
theorem checkGameOver_boundary_witness :
    wallState.snake = ⟨500, 0⟩ :: [⟨475, 0⟩] ∧
    ((500 : ℤ) < 0 ∨ (500 : ℤ) ≥ 500 ∨ (0 : ℤ) < 0 ∨ (0 : ℤ) ≥ 500) ∧
    (checkGameOver 500 500 wallState).running = false := by
  refine ⟨rfl, by decide, ?_⟩
  exact checkGameOver_boundary 500 500 wallState ⟨500, 0⟩ [⟨475, 0⟩] rfl
    (by decide)

/-- C5: on any state whose head coincides with some body segment (a
member of the tail of the segment list), `checkGameOver` clears
`running`. -/
theorem checkGameOver_self_collision (gameWidth gameHeight : ℤ)
    (s : GameState) (h : Pos) (t : List Pos) (p : Pos)
    (hsnake : s.snake = h :: t) (hp : p ∈ t)
    (hpx : p.x = h.x) (hpy : p.y = h.y) :
    (checkGameOver gameWidth gameHeight s).running = false := by
  simp only [checkGameOver, hsnake]
  have hany : t.any (fun q => q.x == h.x && q.y == h.y) = true := by
    refine List.any_eq_true.mpr ⟨p, hp, ?_⟩
    simp [hpx, hpy]
  simp [hany]

/-- C5 witness: in `biteState` the head `(50, 0)` coincides with the last
body segment, and the check stops the game. -/
theorem checkGameOver_self_collision_witness :
    biteState.snake = ⟨50, 0⟩ :: [⟨75, 0⟩, ⟨75, 25⟩, ⟨50, 25⟩, ⟨50, 0⟩] ∧
    (⟨50, 0⟩ : Pos) ∈ [(⟨75, 0⟩ : Pos), ⟨75, 25⟩, ⟨50, 25⟩, ⟨50, 0⟩] ∧
    (checkGameOver 500 500 biteState).running = false := by
  refine ⟨rfl, by decide, ?_⟩
  exact checkGameOver_self_collision 500 500 biteState ⟨50, 0⟩
    [⟨75, 0⟩, ⟨75, 25⟩, ⟨50, 25⟩, ⟨50, 0⟩] ⟨50, 0⟩ rfl (by decide) rfl rfl

/-- C6: the initial snake has 5 segments and every reachable state —
under ticks, direction changes and resets from the initial state — has a
snake of length at least 1. -/
theorem snake_length_invariant (gw gh : ℤ) (s : GameState)
    (hr : Reachable gw gh s) :
    initialSnake.length = 5 ∧ 1 ≤ s.snake.length := by
  refine ⟨rfl, ?_⟩
  induction hr with
  | init r1 r2 => simp [initState, gameStart, createFood, initialSnake]
  | step hs hstep ih =>
    cases hstep with
    | tick r1 r2 =>
      rw [tick]
      split_ifs
      · rw [checkGameOver_snake_eq]
        exact moveSnake_length_pos _ _ _ _ ih
      · simpa [displayGameOver] using ih
    | key k => simpa [changeDirection_snake_eq] using ih
    | reset r1 r2 =>
      simp [resetGame, gameStart, createFood, initialSnake]

/-- C6 witness: the freshly initialised game (board 500 × 500, both draws
0) has a non-empty snake. -/
theorem snake_length_invariant_witness :
    initialSnake.length = 5 ∧ 1 ≤ (initState 500 0 0).snake.length :=
  snake_length_invariant 500 500 (initState 500 0 0) (Reachable.init 0 0)

/-- C7: every reachable state has a velocity that is exactly one of
`(+u,0)`, `(-u,0)`, `(0,+u)`, `(0,-u)` (hence never `(0,0)`): the
initial velocity is `(+u,0)` and ticks, direction changes and resets
preserve the invariant. -/
theorem velocity_invariant (gw gh : ℤ) (s : GameState)
    (hr : Reachable gw gh s) :
    validVelocity s.xVelocity s.yVelocity := by
  induction hr with
  | init r1 r2 =>
    simp [initState, gameStart, createFood, validVelocity]
  | step hs hstep ih =>
    cases hstep with
    | tick r1 r2 =>
      rw [tick]
      split_ifs
      · rw [(checkGameOver_vel_eq _ _ _).1, (checkGameOver_vel_eq _ _ _).2,
          (moveSnake_vel_eq _ _ _ _).1, (moveSnake_vel_eq _ _ _ _).2]
        exact ih
      · simpa [displayGameOver] using ih
    | key k => exact changeDirection_valid k _ ih
    | reset r1 r2 =>
      simp [resetGame, gameStart, createFood, validVelocity]

/-- C7 witness: after initialisation and an up-arrow press the velocity
is still one of the four legal unit steps. -/
theorem velocity_invariant_witness :
    validVelocity (changeDirection Key.arrowUp (initState 500 0 0)).xVelocity
      (changeDirection Key.arrowUp (initState 500 0 0)).yVelocity :=
  velocity_invariant 500 500 _
    (Reachable.step (Reachable.init 0 0) (Step.key Key.arrowUp _))

/-- C8: from any state, `resetGame` (which ends in `gameStart`) rebuilds
the exact initial configuration: running, velocity `(+u,0)`, score 0,
the 5-segment starting snake, and a freshly drawn food position — the
very state `initState` produces for the same draws. -/
theorem resetGame_restores_initial (gameWidth : ℤ) (r1 r2 : ℚ)
    (s : GameState) :
    resetGame gameWidth r1 r2 s =
      { running := true, xVelocity := unitSize, yVelocity := 0,
        foodX := randomFood r1 0 ((gameWidth : ℚ) - (unitSize : ℚ)),
        foodY := randomFood r2 0 ((gameWidth : ℚ) - (unitSize : ℚ)),
        score := 0, snake := initialSnake } ∧
    initialSnake = [⟨unitSize * 4, 0⟩, ⟨unitSize * 3, 0⟩, ⟨unitSize * 2, 0⟩,
      ⟨unitSize, 0⟩, ⟨0, 0⟩] ∧
    resetGame gameWidth r1 r2 s = initState gameWidth r1 r2 := by
  refine ⟨?_, rfl, ?_⟩ <;> simp [resetGame, gameStart, createFood, initState]

/-- C9: `checkGameOver` only ever writes the `running` flag: snake,
velocity, food and score all pass through untouched. -/
theorem checkGameOver_frame (gw gh : ℤ) (s : GameState) :
    (checkGameOver gw gh s).snake = s.snake ∧
    (checkGameOver gw gh s).xVelocity = s.xVelocity ∧
    (checkGameOver gw gh s).yVelocity = s.yVelocity ∧
    (checkGameOver gw gh s).foodX = s.foodX ∧
    (checkGameOver gw gh s).foodY = s.foodY ∧
    (checkGameOver gw gh s).score = s.score := by
  cases hs : s.snake <;> simp [checkGameOver, hs]

/-- C10: a running state whose next head cell is exactly the current tail
cell — in bounds, not the food, and distinct from every non-tail
segment — survives the tick: the tail is popped before `checkGameOver`
runs, so stepping into the vacated cell is not a self-collision. -/
theorem tick_tail_chase_safe (gameWidth gameHeight : ℤ) (r1 r2 : ℚ)
    (s : GameState) (h lastSeg nh : Pos) (t : List Pos)
    (hrun : s.running = true) (hsnake : s.snake = h :: t)
    (hnh : nh = ⟨h.x + s.xVelocity, h.y + s.yVelocity⟩)
    (hlast : (h :: t).getLast (List.cons_ne_nil h t) = lastSeg)
    (htail : nh.x = lastSeg.x ∧ nh.y = lastSeg.y)
    (hin : 0 ≤ nh.x ∧ nh.x < gameWidth ∧ 0 ≤ nh.y ∧ nh.y < gameHeight)
    (hfood : ¬ (nh.x = s.foodX ∧ nh.y = s.foodY))
    (hbody : ∀ p ∈ (h :: t).dropLast, ¬ (p.x = nh.x ∧ p.y = nh.y)) :
    (tick gameWidth gameHeight r1 r2 s).running = true := by
  obtain ⟨run, vx, vy, fx, fy, sc, sn⟩ := s
  simp only at hsnake hnh hrun hfood ⊢
  subst hsnake hnh hrun
  obtain ⟨h1, h2, h3, h4⟩ := hin
  simp only at h1 h2 h3 h4 hfood
  simp only [tick, if_true]
  simp only [moveSnake, if_neg hfood]
  simp only [checkGameOver, List.dropLast_cons₂]
  have hany : ((h :: t).dropLast.any
      (fun p => p.x == h.x + vx && p.y == h.y + vy)) = false := by
    rw [List.any_eq_false]
    intro p hp
    have hb := hbody p hp
    simp only at hb
    simp only [Bool.and_eq_true, beq_iff_eq]
    tauto
  simp only [hany, Bool.false_eq_true, if_false]
  split_ifs <;> first | rfl | omega

/-- C10 witness: `loopState` is a 2 × 2 loop about to move its head into
the cell its tail occupies; the tick leaves the game running. -/
theorem tick_tail_chase_safe_witness :
    loopState.running = true ∧
    (tick 500 500 0 0 loopState).running = true := by
  refine ⟨rfl, ?_⟩
  exact tick_tail_chase_safe 500 500 0 0 loopState ⟨0, 0⟩ ⟨0, 25⟩ ⟨0, 25⟩
    [⟨25, 0⟩, ⟨25, 25⟩, ⟨0, 25⟩] rfl rfl (by decide) (by decide) (by decide)
    (by decide) (by decide) (by decide)

end SnakeGame
